import Mathlib

/-!
Verification of the fetch-normalize-cache pipeline of the stock-analysis-engine
repository (modules `analysis_engine.polygon.*` and `analysis_engine.alpaca.*`).

The Python sources are shallowly embedded: dictionaries become association
lists over a small value type, `pandas.DataFrame`s become a column/row table,
raised exceptions become `Except` errors, and external collaborators (HTTP
transport, the publisher, the `api_requests` builders that live outside the
embedded modules) are parameters whose outcomes the theorems quantify over.
-/

namespace StockAnalysis

/-- A Python runtime value as it appears in the request dictionaries of the
embedded modules: strings, integers, booleans, `None`, and (opaque) datetime
objects. -/
inductive Val where
  | s (v : String)
  | i (n : Int)
  | b (v : Bool)
  | none
  | dt (ns : Int)
deriving DecidableEq, Repr

/-- A Python dictionary with string keys, as an insertion-ordered association
list (Python dicts preserve insertion order). -/
abbrev Dict := List (String × Val)

/-- `d[k]` lookup returning an `Option`. -/
def dictGet? (d : Dict) (k : String) : Option Val :=
  match d with
  | [] => Option.none
  | (k', v) :: rest => if k' = k then some v else dictGet? rest k

/-- Python `d.get(k, dflt)`. -/
def dictGetD (d : Dict) (k : String) (dflt : Val) : Val :=
  (dictGet? d k).getD dflt

/-- Python `k in d`. -/
def dictHas (d : Dict) (k : String) : Bool :=
  (dictGet? d k).isSome

/-- Python `d[k] = v`: update in place if the key exists (keeping its
position), otherwise append. -/
def dictSet (d : Dict) (k : String) (v : Val) : Dict :=
  match d with
  | [] => [(k, v)]
  | (k', v') :: rest => if k' = k then (k', v) :: rest else (k', v') :: dictSet rest k v

/-- A `dictSet` result is never the empty dictionary. -/
theorem dictSet_ne_nil (d : Dict) (k : String) (v : Val) : dictSet d k v ≠ [] := by
  cases d with
  | nil => simp [dictSet]
  | cons hd tl => simp only [dictSet]; split <;> simp

/-- Looking up the key just written returns the written value. -/
theorem dictGet?_dictSet (d : Dict) (k : String) (v : Val) :
    dictGet? (dictSet d k v) k = some v := by
  induction d with
  | nil => simp [dictSet, dictGet?]
  | cons hd tl ih =>
    simp only [dictSet]
    by_cases h : hd.1 = k
    · simp [h, dictGet?]
    · simp [h, dictGet?, ih]

/-- Writing one key leaves lookups of a different key unchanged. -/
theorem dictGet?_dictSet_ne (d : Dict) (k k' : String) (v : Val) (h : k ≠ k') :
    dictGet? (dictSet d k v) k' = dictGet? d k' := by
  induction d with
  | nil => simp [dictSet, dictGet?, h]
  | cons hd tl ih =>
    simp only [dictSet]
    by_cases hk : hd.1 = k
    · subst hk; simp [dictGet?, h, Ne.symm h]
    · simp only [if_neg hk, dictGet?]
      split <;> simp [ih]

/-- Python exceptions raised by the embedded code. -/
inductive PyErr where
  | typeError (msg : String)
  | attributeError (msg : String)
  | valueError (msg : String)
  | keyError (k : String)
  | exception (msg : String)
  | notImplementedError
deriving DecidableEq, Repr

/-- Python truthiness (`bool(v)`) for the value types we carry. -/
def pyTruthy : Val → Bool
  | .s v => v ≠ ""
  | .i n => n ≠ 0
  | .b v => v
  | .none => false
  | .dt _ => true

/-- Python `str(v)` for the value types we carry (datetime rendering is opaque
and never relied on by a theorem). -/
def pyStr : Val → String
  | .s v => v
  | .i n => toString n
  | .b v => if v then "True" else "False"
  | .none => "None"
  | .dt ns => "datetime@" ++ toString ns

/-- Python `v == n` for an integer literal `n` (booleans compare as 0/1,
strings never equal an int). -/
def valEqInt (v : Val) (n : Int) : Bool :=
  match v with
  | .i m => m = n
  | .b x => (if x then (1 : Int) else 0) = n
  | _ => false

/-- Python `v == str_literal`. -/
def valEqStr (v : Val) (t : String) : Bool :=
  match v with
  | .s u => u = t
  | _ => false

/-- Python indexing `d[k]`, raising `KeyError` when absent. -/
def dictIdx (d : Dict) (k : String) : Except PyErr Val :=
  match dictGet? d k with
  | some v => Except.ok v
  | Option.none => Except.error (PyErr.keyError k)

/-- A decoded JSON document (provider response body).  Floating point scalars
are carried opaquely as their literal text. -/
inductive PJson where
  | obj (fields : List (String × PJson))
  | arr (elems : List PJson)
  | str (v : String)
  | num (n : Int)
  | boolean (v : Bool)
  | null
  | raw (lit : String)

/-- An HTTP response as seen by the provider client functions: status code,
body text, and the decoded JSON body. -/
structure HttpResp where
  status : Nat
  text : String
  json : PJson

/-! ## Calendar arithmetic (UTC, proleptic Gregorian)

Used to model `pandas.to_datetime` epoch conversions and `strftime`
re-rendering.  Datetimes are carried as nanoseconds since the Unix epoch
(pandas `datetime64[ns]`). -/

/-- Civil date from a count of days since 1970-01-01 (Gregorian calendar). -/
def civilFromDays (z0 : Int) : Int × Int × Int :=
  let z := z0 + 719468
  let era := Int.ediv z 146097
  let doe := z - era * 146097
  let yoe := Int.ediv (doe - Int.ediv doe 1460 + Int.ediv doe 36524 - Int.ediv doe 146096) 365
  let y := yoe + era * 400
  let doy := doe - (365 * yoe + Int.ediv yoe 4 - Int.ediv yoe 100)
  let mp := Int.ediv (5 * doy + 2) 153
  let d := doy - Int.ediv (153 * mp + 2) 5 + 1
  let m := mp + (if mp < 10 then 3 else -9)
  (y + (if m ≤ 2 then 1 else 0), m, d)

/-- Days since 1970-01-01 of a civil date (Gregorian calendar). -/
def daysFromCivil (y m d : Int) : Int :=
  let y' := y - (if m ≤ 2 then 1 else 0)
  let era := Int.ediv y' 400
  let yoe := y' - era * 400
  let doy := Int.ediv (153 * (m + (if m > 2 then -3 else 9)) + 2) 5 + d - 1
  let doe := yoe * 365 + Int.ediv yoe 4 - Int.ediv yoe 100 + doy
  era * 146097 + doe - 719468

/-- Whether `y` is a Gregorian leap year. -/
def isLeap (y : Int) : Bool :=
  (Int.emod y 4 = 0 ∧ Int.emod y 100 ≠ 0) ∨ Int.emod y 400 = 0

/-- Number of days in month `m` of year `y`. -/
def daysInMonth (y m : Int) : Int :=
  if m = 2 then (if isLeap y then 29 else 28)
  else if m = 4 ∨ m = 6 ∨ m = 9 ∨ m = 11 then 30
  else 31

/-- Zero-pad a natural number to width 2. -/
def pad2 (n : Nat) : String :=
  if n < 10 then "0" ++ toString n else toString n

/-- Zero-pad a natural number to width 4. -/
def pad4 (n : Nat) : String :=
  if n < 10 then "000" ++ toString n
  else if n < 100 then "00" ++ toString n
  else if n < 1000 then "0" ++ toString n
  else toString n

/-- Break a nanosecond epoch timestamp into UTC components
(year, month, day, hour, minute, second). -/
def nsToComponents (ns : Int) : Nat × Nat × Nat × Nat × Nat × Nat :=
  let secs := Int.ediv ns 1000000000
  let days := Int.ediv secs 86400
  let sod := (Int.emod secs 86400).toNat
  let (y, m, d) := civilFromDays days
  (y.toNat, m.toNat, d.toNat, sod / 3600, (sod % 3600) / 60, sod % 60)

/-- `strftime` over the directives the repository uses
(`%Y %m %d %H %M %S`, literal text otherwise). -/
def strftimeChars (y mo d h mi s : Nat) : List Char → String
  | [] => ""
  | '%' :: c :: rest =>
    (match c with
     | 'Y' => pad4 y
     | 'm' => pad2 mo
     | 'd' => pad2 d
     | 'H' => pad2 h
     | 'M' => pad2 mi
     | 'S' => pad2 s
     | '%' => "%"
     | c' => "%" ++ String.singleton c') ++ strftimeChars y mo d h mi s rest
  | c :: rest => String.singleton c ++ strftimeChars y mo d h mi s rest

/-- Render a nanosecond epoch timestamp with a `strftime` format string. -/
def strftimeFmt (fmt : String) (ns : Int) : String :=
  let (y, mo, d, h, mi, s) := nsToComponents ns
  strftimeChars y mo d h mi s fmt.toList

/-- Split a character list on a separator character (like `str.split`). -/
def splitFields (sep : Char) : List Char → List (List Char)
  | [] => [[]]
  | c :: rest =>
    let r := splitFields sep rest
    if c = sep then [] :: r
    else match r with
      | [] => [[c]]
      | h :: t => (c :: h) :: t

/-- Decimal value of a digit list. -/
def digitsToNat (cs : List Char) : Nat :=
  cs.foldl (fun a c => a * 10 + (c.toNat - 48)) 0

/-- A nonempty all-digit field. -/
def allDigits (cs : List Char) : Bool :=
  cs.length > 0 && cs.all Char.isDigit

/-- Strict parse of a `%Y-%m-%d` date string to a nanosecond epoch timestamp
(`None` when the text does not match the format or is not a valid date). -/
def parseYmd (s : String) : Option Int :=
  match splitFields '-' s.toList with
  | [ys, ms, ds] =>
    if allDigits ys && ys.length ≤ 4 && allDigits ms && ms.length ≤ 2
        && allDigits ds && ds.length ≤ 2 then
      let y : Int := (digitsToNat ys : Nat)
      let m : Int := (digitsToNat ms : Nat)
      let d : Int := (digitsToNat ds : Nat)
      if 1 ≤ m ∧ m ≤ 12 ∧ 1 ≤ d ∧ d ≤ daysInMonth y m then
        some (daysFromCivil y m d * 86400 * 1000000000)
      else Option.none
    else Option.none
  | _ => Option.none

/-! ## pandas model

Cells of a table; `cNaT` is the null timestamp produced by
`pd.to_datetime(..., errors="coerce")` on unparseable input, `cNaN` the float
NaN produced e.g. by `.dt.strftime` on a `NaT` entry. -/

inductive Cell where
  | cint (n : Int)
  | cstr (v : String)
  | cdt (ns : Int)
  | cNaT
  | cNaN
  | cbool (v : Bool)
  | craw (lit : String)
deriving DecidableEq, Repr

/-- A `pandas.DataFrame`: named columns and aligned rows. -/
structure DataFrame where
  cols : List String
  rows : List (List Cell)
deriving DecidableEq, Repr

/-- A JSON scalar as a table cell (float literals stay opaque). -/
def cellOfJson : PJson → Cell
  | .str v => .cstr v
  | .num n => .cint n
  | .boolean v => .cbool v
  | .null => .cNaN
  | .raw lit => .craw lit
  | .obj _ => .craw "object"
  | .arr _ => .craw "array"

/-- Column labels of `pd.DataFrame(list_of_records)`: union of the record
keys in order of first appearance. -/
def recordCols (recs : List (List (String × Cell))) : List String :=
  recs.foldl (fun acc r => acc ++ (r.map Prod.fst).filter (fun k => ¬ acc.contains k)) []

/-- `pd.DataFrame(list_of_records)`; keys missing from a record become NaN. -/
def dataFrameOfRecords (recs : List (List (String × Cell))) : DataFrame :=
  let cols := recordCols recs
  { cols := cols
    rows := recs.map (fun r => cols.map (fun k => ((r.lookup k).getD Cell.cNaN))) }

/-- `df.columns = names`: pandas raises a length-mismatch `ValueError` when
the label count differs from the axis length (this is what an empty provider
response runs into). -/
def DataFrame.setCols (df : DataFrame) (names : List String) : Except PyErr DataFrame :=
  if names.length = df.cols.length then Except.ok { df with cols := names }
  else Except.error (PyErr.valueError
    ("Length mismatch: Expected axis has " ++ toString df.cols.length ++
      " elements, new values have " ++ toString names.length ++ " elements"))

/-- `c in df` (column membership). -/
def DataFrame.hasCol (df : DataFrame) (c : String) : Bool :=
  df.cols.contains c

/-- Apply a cell transformation to every entry of column `c`. -/
def DataFrame.mapCol (df : DataFrame) (c : String) (f : Cell → Cell) : DataFrame :=
  { df with rows := df.rows.map (fun row => (df.cols.zip row).map
      (fun kv => if kv.1 = c then f kv.2 else kv.2)) }

/-- The cells of column `c`. -/
def DataFrame.getCol (df : DataFrame) (c : String) : List Cell :=
  df.rows.map (fun row => ((df.cols.zip row).lookup c).getD Cell.cNaN)

/-- Drop column `c`. -/
def DataFrame.dropCol (df : DataFrame) (c : String) : DataFrame :=
  { cols := df.cols.filter (fun k => ¬ k = c)
    rows := df.rows.map (fun row => ((df.cols.zip row).filter (fun kv => ¬ kv.1 = c)).map Prod.snd) }

/-- Result of one of the `fetch_*` table pipelines: either the plain frame
(returned before `set_index`) or the frame indexed by a temporal column. -/
inductive FetchedFrame where
  | plain (df : DataFrame)
  | indexed (index : List Cell) (df : DataFrame)
deriving DecidableEq, Repr

/-- `df.set_index([c])`. -/
def DataFrame.setIndex (df : DataFrame) (c : String) : FetchedFrame :=
  .indexed (df.getCol c) (df.dropCol c)

/-- `pd.to_datetime(cell, format="%Y-%m-%d", errors="coerce")`: strings are
parsed strictly against the date format; values that do not match (in
particular raw epoch integers) are coerced to `NaT`. -/
def toDatetimeYmd : Cell → Cell
  | .cstr v => match parseYmd v with
    | some ns => .cdt ns
    | Option.none => .cNaT
  | .cdt ns => .cdt ns
  | _ => .cNaT

/-- `pd.to_datetime(cell, unit=u, errors="coerce")` with `scale` nanoseconds
per unit: integers (or integer strings) are epoch counts; other values are
coerced to `NaT`. -/
def toDatetimeEpoch (scale : Int) : Cell → Cell
  | .cint n => .cdt (n * scale)
  | .cstr v => if allDigits v.toList then .cdt ((digitsToNat v.toList : Nat) * scale) else .cNaT
  | .cdt ns => .cdt ns
  | _ => .cNaT

/-- `series.dt.strftime(fmt)`: datetimes render through the format, `NaT`
renders as float NaN. -/
def strftimeCell (fmt : String) : Cell → Cell
  | .cdt ns => .cstr (strftimeFmt fmt ns)
  | .cNaT => .cNaN
  | c => c

/-- For each column name in `cs` that is present in `df`, convert its cells
with `f` (one loop of `convert_datetime_columns`). -/
def convertCols (cs : List String) (f : Cell → Cell) (df : DataFrame) : DataFrame :=
  cs.foldl (fun d c => if d.hasCol c then d.mapCol c f else d) df

/-- Strict parse of a `%Y-%m-%d %H:%M:%S` string to a nanosecond epoch
timestamp. -/
def parseYmdHms (s : String) : Option Int :=
  match splitFields ' ' s.toList with
  | [ds, ts] =>
    match parseYmd (String.mk ds), splitFields ':' ts with
    | some base, [hs, ms, ss] =>
      if allDigits hs && hs.length ≤ 2 && allDigits ms && ms.length ≤ 2
          && allDigits ss && ss.length ≤ 2 then
        let h : Nat := digitsToNat hs
        let mi : Nat := digitsToNat ms
        let sec : Nat := digitsToNat ss
        if h < 24 ∧ mi < 60 ∧ sec < 60 then
          some (base + ((h * 3600 + mi * 60 + sec : Nat) : Int) * 1000000000)
        else Option.none
      else Option.none
    | _, _ => Option.none
  | _ => Option.none

/-- `pd.to_datetime(cell, format="%Y-%m-%d %H:%M:%S", errors="coerce")`. -/
def toDatetimeYmdHms : Cell → Cell
  | .cstr v => match parseYmdHms v with
    | some ns => .cdt ns
    | Option.none => .cNaT
  | .cdt ns => .cdt ns
  | _ => .cNaT

/-- `resp_json[k]` on a decoded JSON object (`KeyError` when absent,
`TypeError` when the JSON is not an object). -/
def pjsonIdx (j : PJson) (k : String) : Except PyErr PJson :=
  match j with
  | .obj fields =>
    match fields.lookup k with
    | some v => Except.ok v
    | Option.none => Except.error (PyErr.keyError k)
  | _ => Except.error (PyErr.typeError "value is not subscriptable")

/-- `resp_json.get(k)` on a decoded JSON object (`None` when absent). -/
def pjsonGet (j : PJson) (k : String) : PJson :=
  match j with
  | .obj fields => (fields.lookup k).getD PJson.null
  | _ => PJson.null

/-- `pd.DataFrame(x)` for `x` a decoded JSON list of records (`None` gives an
empty frame, as in `pd.DataFrame(resp_json.get(...))`). -/
def pdDataFrameOfJson : PJson → Except PyErr DataFrame
  | .arr es =>
    match es.mapM (fun e => match e with
      | .obj fs => Except.ok (fs.map (fun kv => (kv.1, cellOfJson kv.2)))
      | _ => (Except.error (PyErr.valueError "DataFrame constructor expects records") : Except PyErr (List (String × Cell)))) with
    | Except.ok recs => Except.ok (dataFrameOfRecords recs)
    | Except.error e => Except.error e
  | .null => Except.ok (dataFrameOfRecords [])
  | _ => Except.error (PyErr.valueError "DataFrame constructor expects records")

/-- ASCII lower-casing of one character (`str.lower()` on the inputs the
registries see). -/
def lowerChar (c : Char) : Char :=
  if 'A' ≤ c ∧ c ≤ 'Z' then Char.ofNat (c.toNat + 32) else c

/-- ASCII `str.lower()`. -/
def lowerStr (s : String) : String :=
  String.mk (s.toList.map lowerChar)

/-- One branch guard of the `get_ft_str` registry functions:
`ft_type == code or ft_str == name` where `ft_str = str(ft_type).lower()`. -/
def ftCond (ft : Val) (code : Int) (name : String) : Bool :=
  valEqInt ft code || lowerStr (pyStr ft) == name

namespace Polygon

/-- `analysis_engine.polygon.consts` numeric fetch-type codes. -/
def FETCH_DAILY : Int := 700
def FETCH_MINUTE : Int := 701
def FETCH_QUOTE : Int := 702
def FETCH_NEWS : Int := 703
def FETCH_FINANCIALS : Int := 704
def FETCH_DIVIDENDS : Int := 705
def FETCH_COMPANY : Int := 706
def FETCH_TICKERS : Int := 707

/-- `POLYGON_DATE_FIELDS` (columns parsed with the plain `%Y-%m-%d` date
format). -/
def POLYGON_DATE_FIELDS : List String :=
  ["calendarDate", "reportPeriod", "updated", "date", "exDate",
   "declaredDate", "paymentDate", "recordDate"]

/-- `POLYGON_TIME_FIELDS` (columns parsed as millisecond epoch integers).
The source omits a comma between the literals "open.time" and
"processedTime", so Python concatenates them into a single element. -/
def POLYGON_TIME_FIELDS : List String :=
  ["closeTime", "close.time", "delayedPriceTime", "extendedPriceTime",
   "latestTime", "openTime", "open.timeprocessedTime", "t", "time",
   "timestamp", "lastUpdated"]

/-- `POLYGON_EPOCH_FIELDS` (nanosecond epoch columns). -/
def POLYGON_EPOCH_FIELDS : List String := []

/-- `POLYGON_SEC_EPOCH_FIELDS` (second epoch columns). -/
def POLYGON_SEC_EPOCH_FIELDS : List String := ["datetime"]

/-- `POLYGON_SECOND_FIELDS` (columns parsed with `%Y-%m-%d %H:%M:%S`). -/
def POLYGON_SECOND_FIELDS : List String := []

/-- `helpers_for_polygon_api.convert_datetime_columns` with its default
column lists: five conversion passes over the frame. -/
def convert_datetime_columns (df : DataFrame) : DataFrame :=
  let df := convertCols POLYGON_DATE_FIELDS toDatetimeYmd df
  let df := convertCols POLYGON_SECOND_FIELDS toDatetimeYmdHms df
  let df := convertCols POLYGON_SEC_EPOCH_FIELDS (toDatetimeEpoch 1000000000) df
  let df := convertCols POLYGON_TIME_FIELDS (toDatetimeEpoch 1000000) df
  convertCols POLYGON_EPOCH_FIELDS (toDatetimeEpoch 1) df

/-- Environment configuration consumed by the polygon client
(`POLYGON_URL`, `POLYGON_TOKEN`). -/
structure Env where
  base : String
  token : Option Val

/-- `helpers_for_polygon_api.get_from_polygon`: resolves the token, builds
the URL, then iterates `query_params` to append them — before the HTTP
request is issued.  When `query_params` is `None` (its default) the
iteration raises `TypeError`.  Returns the client outcome together with the
list of URLs actually requested over HTTP. -/
def get_from_polygon (env : Env) (url : String) (token : Option Val)
    (query_params : Option (List (String × String))) (verbose : Bool)
    (http : String → HttpResp) : Except PyErr PJson × List String :=
  let tok : Val := match token with
    | Option.none => (env.token.getD Val.none)
    | some t => t
  let url1 := env.base ++ url ++ "?apiKey=" ++ pyStr tok
  match query_params with
  | Option.none =>
    (Except.error (PyErr.typeError "NoneType object is not iterable"), [])
  | some ps =>
    let url2 := ps.foldl (fun u kv => u ++ "&" ++ kv.1 ++ "=" ++ kv.2) url1
    let resp := http url2
    if resp.status = 200 then
      (Except.ok resp.json, [url2])
    else
      (Except.error (PyErr.exception
        ("Failed to get data from Polygon with function=get_from_polygon url=" ++
          url2 ++ " which sent response " ++ toString resp.status ++ " - " ++
          resp.text)), [url2])

/-- The table pipeline of `fetch_api.fetch_daily` after the provider response
is decoded (fetch_api.py lines 238-266): build the frame from
`resp_json["results"]`, rename the columns positionally, return early when
the temporal column is missing or the frame is empty, convert datetime
columns, re-render the `date` column as strings with the cache date format,
and set it as the index. -/
def fetch_daily_postprocess (results : PJson) (fmt : String) :
    Except PyErr FetchedFrame :=
  match pdDataFrameOfJson results with
  | Except.error e => Except.error e
  | Except.ok df =>
    match df.setCols ["volume", "vwap", "open", "close", "high", "low", "date", "count"] with
    | Except.error e => Except.error e
    | Except.ok df =>
      if ¬ df.hasCol "date" then Except.ok (FetchedFrame.plain df)
      else if df.rows.length = 0 then Except.ok (FetchedFrame.plain df)
      else
        let df := convert_datetime_columns df
        let df := df.mapCol "date" (strftimeCell fmt)
        Except.ok (df.setIndex "date")

/-- `fetch_api.fetch_daily` in full: resolve the ticker and date range from
the arguments and `work_dict`, build the range URL, call `get_from_polygon`
with its `query_params` argument left at the default `None`, and feed the
decoded body through `fetch_daily_postprocess`.  `todayStr` stands for
`datetime.datetime.today().strftime("%Y-%m-%d")` and `fmt` for
`analysis_engine.consts.COMMON_TICK_DATE_FORMAT` (both outside src). -/
def fetch_daily (ticker backfill_date : Val) (work_dict : Option Dict)
    (verbose : Bool) (todayStr : String) (env : Env)
    (http : String → HttpResp) (fmt : String) :
    Except PyErr FetchedFrame × List String :=
  let wdLive : Option Dict := match work_dict with
    | some wd => if wd.isEmpty then Option.none else some wd
    | Option.none => Option.none
  let ticker := match wdLive with
    | some wd => if pyTruthy ticker then ticker else dictGetD wd "ticker" Val.none
    | Option.none => ticker
  let use_date := match wdLive with
    | some wd =>
      if pyTruthy backfill_date then dictGetD wd "use_date" Val.none
      else dictGetD wd "backfill_date" Val.none
    | Option.none => backfill_date
  let from_historical_date := match wdLive with
    | some wd => if dictHas wd "from_historical_date" then dictGetD wd "from_historical_date" Val.none else Val.none
    | Option.none => Val.none
  let use_date := if use_date = Val.none then Val.s todayStr else use_date
  let from_historical_date :=
    if from_historical_date = Val.none then use_date else from_historical_date
  let use_url := "/v2/aggs/ticker/" ++ pyStr ticker ++ "/range/1/day/" ++
    pyStr from_historical_date ++ "/" ++ pyStr use_date
  let (r, reqs) := get_from_polygon env use_url env.token Option.none verbose http
  match r with
  | Except.error e => (Except.error e, reqs)
  | Except.ok j =>
    match pjsonIdx j "results" with
    | Except.error e => (Except.error e, reqs)
    | Except.ok results => (fetch_daily_postprocess results fmt, reqs)

/-- `consts.get_ft_str`: resolve a numeric fetch-type code or (case-folded)
kind name to the canonical kind string. -/
def get_ft_str (ft : Val) : String :=
  if ftCond ft 700 "daily" then "daily"
  else if ftCond ft 701 "minute" then "minute"
  else if ftCond ft 702 "quote" then "quote"
  else if ftCond ft 703 "news" then "news"
  else if ftCond ft 704 "financials" then "financials"
  else if ftCond ft 705 "dividends" then "dividends"
  else if ftCond ft 706 "company" then "company"
  else if ftCond ft 707 "tickers" then "tickers"
  else "unsupported ft_type=" ++ pyStr ft

/-- Disjunction of all the registry guards of `consts.get_ft_str`: true
exactly when the input is one of the registered numeric codes or matches a
supported kind name case-insensitively. -/
def ftKnown (ft : Val) : Bool :=
  ftCond ft 700 "daily" || ftCond ft 701 "minute" || ftCond ft 702 "quote" ||
  ftCond ft 703 "news" || ftCond ft 704 "financials" ||
  ftCond ft 705 "dividends" || ftCond ft 706 "company" || ftCond ft 707 "tickers"

/-- The provider-client call issued by `fetch_api.fetch_minute`
(lines 327-330): `query_params` left at its default `None`. -/
def fetch_minute_call (ticker from_historical_date use_date : Val) (env : Env)
    (verbose : Bool) (http : String → HttpResp) : Except PyErr PJson × List String :=
  get_from_polygon env ("/v2/aggs/ticker/" ++ pyStr ticker ++ "/range/1/minute/" ++
    pyStr from_historical_date ++ "/" ++ pyStr use_date) env.token Option.none verbose http

/-- The provider-client call issued by `fetch_api.fetch_quote`
(lines 405-408): `query_params` left at its default `None`. -/
def fetch_quote_call (ticker : Val) (env : Env) (verbose : Bool)
    (http : String → HttpResp) : Except PyErr PJson × List String :=
  get_from_polygon env ("/v1/last_quote/stocks/" ++ pyStr ticker)
    env.token Option.none verbose http

/-- The provider-client call issued by `fetch_api.fetch_news`
(lines 486-489): `query_params` left at its default `None`. -/
def fetch_news_call (ticker : Val) (env : Env) (verbose : Bool)
    (http : String → HttpResp) : Except PyErr PJson × List String :=
  get_from_polygon env ("v1/meta/symbols/" ++ pyStr ticker ++ "/news")
    env.token Option.none verbose http

/-- The provider-client call issued by `fetch_api.fetch_financials`
(lines 565-568): `query_params` left at its default `None`. -/
def fetch_financials_call (ticker : Val) (env : Env) (verbose : Bool)
    (http : String → HttpResp) : Except PyErr PJson × List String :=
  get_from_polygon env ("v2/reference/financials/" ++ pyStr ticker)
    env.token Option.none verbose http

/-- The provider-client call issued by `fetch_api.fetch_dividends`
(lines 646-649): `query_params` left at its default `None`. -/
def fetch_dividends_call (ticker : Val) (env : Env) (verbose : Bool)
    (http : String → HttpResp) : Except PyErr PJson × List String :=
  get_from_polygon env ("v2/reference/dividends/" ++ pyStr ticker)
    env.token Option.none verbose http

/-- The provider-client call issued by `fetch_api.fetch_company`
(lines 721-724): `query_params` left at its default `None`. -/
def fetch_company_call (ticker : Val) (env : Env) (verbose : Bool)
    (http : String → HttpResp) : Except PyErr PJson × List String :=
  get_from_polygon env ("v1/meta/symbols/" ++ pyStr ticker ++ "/company")
    env.token Option.none verbose http

/-- `fetch_api.fetch_tickers` (lines 102-171): builds the query-parameter
dictionary, optionally replaces it with `work_dict["locale"]`, then executes
`query_params.locale = locale`.  Attribute assignment is not supported on any
of the values `query_params` can hold at that point (a dict, or whatever
`work_dict["locale"]` contained), so every call with a truthy `locale` (the
default is "us") raises `AttributeError` before any page is fetched.  With a
falsy `locale` the subsequent `get_from_polygon` call iterates the
query-parameter dictionary itself, whose string keys fail to unpack into the
`(param_name, param_value)` pattern.  The second component lists the URLs
requested over HTTP. -/
def fetch_tickers (locale : Val) (work_dict : Option Dict) :
    Except PyErr DataFrame × List String :=
  let query_params : Dict ⊕ Val := Sum.inl
    [("sort", Val.s "ticker"), ("market", Val.s "stocks"),
     ("active", Val.s "true"), ("perpage", Val.i 50), ("page", Val.i 1)]
  let query_params := match work_dict with
    | some wd =>
      if ¬ wd.isEmpty ∧ pyTruthy (dictGetD wd "locale" Val.none) then
        Sum.inr (dictGetD wd "locale" Val.none)
      else query_params
    | Option.none => query_params
  if pyTruthy locale then
    (Except.error (PyErr.attributeError
      "query_params object does not support attribute assignment"), [])
  else
    match query_params with
    | Sum.inl _ => (Except.error (PyErr.valueError "too many values to unpack"), [])
    | Sum.inr _ => (Except.error (PyErr.typeError "cannot unpack query params"), [])

/-- The sequence of page numbers the pagination of `fetch_tickers`
(fetch_api.py lines 147-164) requests once `count` and `perPage` are read
from the first page: the initial request carries `page=1` from the query
template, and the loop `for page in range(1, max_page)` then sets `page` to
`1, ..., max_page - 1`, where `max_page = ceil(count / perPage)`. -/
def tickers_page_sequence (count perPage : Nat) : List Nat :=
  let max_page := (count + perPage - 1) / perPage
  1 :: (List.range max_page).drop 1

end Polygon

namespace Alpaca

/-- `analysis_engine.alpaca.consts` numeric fetch-type codes. -/
def FETCH_DAILY : Int := 800
def FETCH_MINUTE : Int := 801
def FETCH_QUOTE : Int := 802
def FETCH_STATS : Int := 803
def FETCH_PEERS : Int := 804
def FETCH_NEWS : Int := 805
def FETCH_FINANCIALS : Int := 806
def FETCH_EARNINGS : Int := 807
def FETCH_DIVIDENDS : Int := 808
def FETCH_COMPANY : Int := 809

/-- `analysis_engine.alpaca.consts` datafeed codes. -/
def DATAFEED_DAILY : Int := 900
def DATAFEED_MINUTE : Int := 901
def DATAFEED_QUOTE : Int := 902
def DATAFEED_STATS : Int := 903
def DATAFEED_PEERS : Int := 904
def DATAFEED_NEWS : Int := 905
def DATAFEED_FINANCIALS : Int := 906
def DATAFEED_EARNINGS : Int := 907
def DATAFEED_DIVIDENDS : Int := 908
def DATAFEED_COMPANY : Int := 909

/-- `ALPACA_DATE_FIELDS`. -/
def ALPACA_DATE_FIELDS : List String :=
  ["calendarDate", "reportPeriod", "updated", "date", "exDate",
   "declaredDate", "paymentDate", "recordDate"]

/-- `ALPACA_TIME_FIELDS` (millisecond epoch columns); as in the polygon
module, the source omits a comma between "open.time" and "processedTime",
so Python concatenates them. -/
def ALPACA_TIME_FIELDS : List String :=
  ["closeTime", "close.time", "delayedPriceTime", "extendedPriceTime",
   "iexLastUpdated", "latestTime", "openTime", "open.timeprocessedTime",
   "time", "timestamp", "lastUpdated"]

/-- `ALPACA_EPOCH_FIELDS` (nanosecond epoch columns). -/
def ALPACA_EPOCH_FIELDS : List String := ["t", "datetime"]

/-- `ALPACA_SECOND_FIELDS`. -/
def ALPACA_SECOND_FIELDS : List String := []

/-- `helpers_for_alpaca_api.convert_datetime_columns` with its default
column lists (no seconds-epoch pass in this module). -/
def convert_datetime_columns (df : DataFrame) : DataFrame :=
  let df := convertCols ALPACA_DATE_FIELDS toDatetimeYmd df
  let df := convertCols ALPACA_SECOND_FIELDS toDatetimeYmdHms df
  let df := convertCols ALPACA_TIME_FIELDS (toDatetimeEpoch 1000000) df
  convertCols ALPACA_EPOCH_FIELDS (toDatetimeEpoch 1) df

/-- `helpers_for_alpaca_api.get_from_alpaca`: on a 200 response return the
decoded JSON (logging it when verbose); on any other status raise an
exception carrying the status code and the response body. -/
def get_from_alpaca (base url : String) (verbose : Bool) (resp : HttpResp) :
    Except PyErr PJson :=
  if resp.status = 200 then Except.ok resp.json
  else Except.error (PyErr.exception
    ("Failed to get data from Alpaca with function=get_from_alpaca url=" ++
      base ++ url ++ " which sent response " ++ toString resp.status ++ " - " ++
      resp.text))

/-- `helpers_for_alpaca_api.get_from_polygon` with the indentation exactly as
in the source: both the `return res_data` and the `raise` sit inside the
200-status branch — the `return` inside `if verbose:` and the `raise` right
after it — so a 200 response returns data only when `verbose` is true and
raises the failure exception otherwise, while a non-200 response falls off
the end of the function and returns `None`. -/
def get_from_polygon (base : String) (envToken : Option Val) (url : String)
    (token : Option Val) (verbose : Bool) (resp : HttpResp) :
    Except PyErr (Option PJson) :=
  let tok : Val := match token with
    | Option.none => (envToken.getD Val.none)
    | some t => t
  let url1 := base ++ url ++ "?apiKey=" ++ pyStr tok
  if resp.status = 200 then
    if verbose then Except.ok (some resp.json)
    else Except.error (PyErr.exception
      ("Failed to get data from Polygon with function=get_from_polygon url=" ++
        url1 ++ " which sent response " ++ toString resp.status ++ " - " ++
        resp.text))
  else Except.ok Option.none

/-- The table pipeline of the alpaca `fetch_api.fetch_daily` after the
provider response is decoded (fetch_api.py lines 151-180): build the frame
from `resp_json[ticker]`, rename the columns positionally, return early when
the temporal column is missing or the frame is empty, convert datetime
columns, re-render `datetime` as strings, call (without using the result)
`set_index`, and return the frame. -/
def fetch_daily_postprocess (tickerRows : PJson) (fmt : String) :
    Except PyErr DataFrame :=
  match pdDataFrameOfJson tickerRows with
  | Except.error e => Except.error e
  | Except.ok df =>
    match df.setCols ["close", "high", "low", "open", "datetime", "volume"] with
    | Except.error e => Except.error e
    | Except.ok df =>
      if ¬ df.hasCol "datetime" then Except.ok df
      else if df.rows.length = 0 then Except.ok df
      else
        let df := convert_datetime_columns df
        let df := df.mapCol "datetime" (strftimeCell fmt)
        let _ := df.setIndex "datetime"
        Except.ok df

/-- The provider-client call issued by the alpaca `fetch_api.fetch_news`
(lines 409-412): it goes through the module's own broken `get_from_polygon`. -/
def fetch_news_call (ticker : Val) (base : String) (envToken : Option Val)
    (verbose : Bool) (resp : HttpResp) : Except PyErr (Option PJson) :=
  get_from_polygon base envToken ("v1/meta/symbols/" ++ pyStr ticker ++ "/news")
    envToken verbose resp

/-- `alpaca.consts.get_ft_str`. -/
def get_ft_str (ft : Val) : String :=
  if ftCond ft 800 "daily" then "daily"
  else if ftCond ft 801 "minute" then "minute"
  else if ftCond ft 802 "quote" then "quote"
  else if ftCond ft 803 "stats" then "stats"
  else if ftCond ft 804 "peers" then "peers"
  else if ftCond ft 805 "news" then "news"
  else if ftCond ft 806 "financials" then "financials"
  else if ftCond ft 807 "earnings" then "earnings"
  else if ftCond ft 808 "dividends" then "dividends"
  else if ftCond ft 809 "company" then "company"
  else "unsupported ft_type=" ++ pyStr ft

/-- Disjunction of all the registry guards of `alpaca.consts.get_ft_str`. -/
def ftKnown (ft : Val) : Bool :=
  ftCond ft 800 "daily" || ftCond ft 801 "minute" || ftCond ft 802 "quote" ||
  ftCond ft 803 "stats" || ftCond ft 804 "peers" || ftCond ft 805 "news" ||
  ftCond ft 806 "financials" || ftCond ft 807 "earnings" ||
  ftCond ft 808 "dividends" || ftCond ft 809 "company"

/-- `alpaca.consts.get_datafeed_str`. -/
def get_datafeed_str (df_type : Int) : String :=
  if df_type = DATAFEED_DAILY then "daily"
  else if df_type = DATAFEED_MINUTE then "minute"
  else if df_type = DATAFEED_QUOTE then "quote"
  else if df_type = DATAFEED_STATS then "stats"
  else if df_type = DATAFEED_PEERS then "peers"
  else if df_type = DATAFEED_NEWS then "news"
  else if df_type = DATAFEED_FINANCIALS then "financials"
  else if df_type = DATAFEED_EARNINGS then "earnings"
  else if df_type = DATAFEED_DIVIDENDS then "dividends"
  else if df_type = DATAFEED_COMPANY then "company"
  else "unsupported df_type=" ++ toString df_type

end Alpaca

/-! ## The fetch orchestrator `polygon.get_data.get_data_from_polygon`

External collaborators that live in this repository but outside src/
(`analysis_engine.consts`, `analysis_engine.build_result`, the
`api_requests` builders, `polygon.fetch_data.fetch_data` and the publisher)
enter the model either as spec-modelled definitions (marked below) or as
outcome parameters the theorems quantify over. -/

/-- Modelled from the spec: the `FetchResult` status enumeration of spec
section 3 (`SUCCESS`, `EMPTY`, `ERROR`, `NOT_RUN`); the numeric constants
live in `analysis_engine.consts`, which is not under src/. -/
inductive Status where
  | SUCCESS
  | EMPTY
  | ERR
  | NOT_RUN
deriving DecidableEq, Repr

/-- The `rec` dictionary of `get_data_from_polygon`
(`{"data": None, "updated": None}` initially; both fields set on a
successful fetch). -/
structure FetchRec where
  data : Option String
  updated : Option String
deriving DecidableEq, Repr

/-- The result dictionary `{status, err, rec}` returned by the orchestrator. -/
structure Res where
  status : Status
  err : Option String
  rec_ : FetchRec
deriving DecidableEq, Repr

/-- Modelled from the spec: `analysis_engine.build_result.build_result`
(not under src/) packages a status, error text and record into the
`{status, err, rec}` result value described in spec sections 3 and 7. -/
def build_result (status : Status) (err : Option String) (rec : FetchRec) : Res :=
  ⟨status, err, rec⟩

/-- Modelled from the spec: the default ticker constant
`analysis_engine.consts.TICKER` (not under src/). -/
def ae_TICKER : String := "SPY"

/-- Rendering of a raised exception in an f-string. -/
def pyErrStr : PyErr → String
  | .typeError m => "TypeError: " ++ m
  | .attributeError m => "AttributeError: " ++ m
  | .valueError m => "ValueError: " ++ m
  | .keyError k => "KeyError: " ++ k
  | .exception m => m
  | .notImplementedError => "NotImplementedError"

/-- What a call to `get_data_from_polygon` produces: the result value, the
`upload_and_cache_req` dictionary handed to the publish collaborator (when
execution reached the publish step), and the `field` string as rendered in
the fetching/log messages. -/
structure GOut where
  res : Res
  publishReq : Option Dict
  logField : Option String
deriving DecidableEq, Repr

/-- The guard disjunction of the `ft_type` dispatch in
`get_data_from_polygon` (get_data.py lines 67-94): the seven polygon fetch
codes 700-706 or their kind names (`tickers` is not dispatched here). -/
def gdfpKnown (ft : Val) : Bool :=
  ftCond ft 700 "daily" || ftCond ft 701 "minute" || ftCond ft 702 "quote" ||
  ftCond ft 703 "news" || ftCond ft 704 "financials" ||
  ftCond ft 705 "dividends" || ftCond ft 706 "company"

/-- `clone_keys` (get_data.py lines 103-112). -/
def CLONE_KEYS : List String :=
  ["ticker", "s3_address", "s3_bucket", "s3_key",
   "redis_address", "redis_db", "redis_password", "redis_key"]

/-- The inner `try` of `get_data_from_polygon` (lines 138-171): the
(arguments-swapped) `strptime` call guarded by `"from" in work_dict`, the
backfill key writes on `polygon_req`, then the fetch collaborator filling
`rec`.  `strptimeOutcome` is the outcome of the stdlib `datetime.strptime`
call and `fetchJson` the outcome of `fetch_data` followed by `to_json`.
Returns the mutated request, the `rec` state, and the caught exception if
any (the handler only logs it). -/
def gdfp_inner (wd req : Dict) (ticker field backfill_date : Val)
    (strptimeOutcome : Except PyErr Val) (fetchJson : Except PyErr String)
    (nowStr : String) : Dict × FetchRec × Option PyErr :=
  let rec0 : FetchRec := ⟨Option.none, Option.none⟩
  let step1 : Except PyErr Dict :=
    if dictHas wd "from" then
      match strptimeOutcome with
      | Except.ok v => Except.ok (dictSet req "from" v)
      | Except.error e => Except.error e
    else Except.ok req
  match step1 with
  | Except.error e => (req, rec0, some e)
  | Except.ok req1 =>
    let req2 :=
      if pyTruthy backfill_date then
        let rk := Val.s (pyStr ticker ++ "_" ++ pyStr backfill_date ++ "_" ++ pyStr field)
        dictSet (dictSet (dictSet req1 "backfill_date" backfill_date) "redis_key" rk) "s3_key" rk
      else req1
    match fetchJson with
    | Except.error e => (req2, rec0, some e)
    | Except.ok js => (req2, ⟨some js, some nowStr⟩, Option.none)

/-- One storage-key rewrite block of `get_data_from_polygon`
(lines 190-195 for `redis_key`, 196-201 for `s3_key`): guarded by key
presence in the caller's `work_dict`; the `.get` default
`polygon_req[key]` is evaluated eagerly and can raise `KeyError`; a
backfill date replaces the base with `f"{ticker}_{backfill_date}"`; the
final key appends `use_field`. -/
def gdfp_rewrite_key (wd req3 up : Dict) (keyName : String)
    (ticker backfill_date use_field : Val) : Except PyErr Dict :=
  if dictHas wd keyName then
    match dictIdx req3 keyName with
    | Except.error e => Except.error e
    | Except.ok dflt =>
      let rk := dictGetD wd keyName dflt
      let rk := if pyTruthy backfill_date then
          Val.s (pyStr ticker ++ "_" ++ pyStr backfill_date)
        else rk
      Except.ok (dictSet up keyName (Val.s (pyStr rk ++ "_" ++ pyStr use_field)))
  else Except.ok up

/-- The body of `get_data_from_polygon` inside its outer `try` (lines
55-231).  An error value carries the `rec` state at the raise point, since
the outer handler reuses the mutated `rec`. -/
def gdfp_body (work_dict : Option Dict) (buildReq : Except PyErr Dict)
    (strptimeOutcome : Except PyErr Val) (fetchJson : Except PyErr String)
    (publishOutcome : Except PyErr Dict) (nowStr : String) :
    Except (PyErr × FetchRec) GOut :=
  let rec0 : FetchRec := ⟨Option.none, Option.none⟩
  match work_dict with
  | Option.none =>
    Except.error (PyErr.attributeError "NoneType object has no attribute get", rec0)
  | some wd =>
    let ticker := dictGetD wd "ticker" (Val.s ae_TICKER)
    let field := dictGetD wd "field" (Val.s "daily")
    let ft_type := dictGetD wd "ft_type" Val.none
    let label := dictGetD wd "label" (Val.s "get_data_from_polygon")
    let backfill_date := dictGetD wd "backfill_date" Val.none
    if ¬ gdfpKnown ft_type then Except.error (PyErr.notImplementedError, rec0)
    else
      match buildReq with
      | Except.error e => Except.error (e, rec0)
      | Except.ok req0 =>
        let req1 := dictSet req0 "ticker" ticker
        let req2 := CLONE_KEYS.foldl (fun r k =>
          if dictHas r k then
            dictSet r k (dictGetD wd k (Val.s (k ++ "-missing-in-" ++ pyStr label)))
          else r) req1
        if req2.isEmpty then
          Except.ok ⟨build_result Status.ERR
            (some ("did not build an Polygon request for work=" ++ pyStr ticker))
            rec0, Option.none, Option.none⟩
        else
          let (req3, rec1, _innerErr) :=
            gdfp_inner wd req2 ticker field backfill_date strptimeOutcome fetchJson nowStr
          let up0 := req3
          let up1 := dictSet up0 "celery_disabled" (Val.b true)
          let dataV := match rec1.data with
            | some js => Val.s js
            | Option.none => Val.none
          let up2 := dictSet up1 "data" dataV
          let up3 := if pyTruthy (dictGetD up2 "data" Val.none) then up2
            else dictSet up2 "data" (Val.s "\x7b\x7d")
          let use_field := if valEqStr field "news" then Val.s "news1" else field
          match gdfp_rewrite_key wd req3 up3 "redis_key" ticker backfill_date use_field with
          | Except.error e => Except.error (e, rec1)
          | Except.ok up4 =>
            match gdfp_rewrite_key wd req3 up4 "s3_key" ticker backfill_date use_field with
            | Except.error e => Except.error (e, rec1)
            | Except.ok up5 =>
              let publishStep : Except PyErr Unit :=
                match publishOutcome with
                | Except.ok _ => Except.ok ()
                | Except.error _ =>
                  match dictIdx up5 "s3_key" with
                  | Except.error e => Except.error e
                  | Except.ok _ =>
                    match dictIdx up5 "redis_key" with
                    | Except.error e => Except.error e
                    | Except.ok _ => Except.ok ()
              match publishStep with
              | Except.error e => Except.error (e, rec1)
              | Except.ok _ =>
                Except.ok ⟨build_result Status.SUCCESS Option.none rec1,
                  some up5, some (pyStr field)⟩

/-- `get_data.get_data_from_polygon` in full: the body wrapped in the outer
`except Exception` handler, which converts any raised exception into an
`ERR` result value instead of letting it escape. -/
def get_data_from_polygon (work_dict : Option Dict) (buildReq : Except PyErr Dict)
    (strptimeOutcome : Except PyErr Val) (fetchJson : Except PyErr String)
    (publishOutcome : Except PyErr Dict) (nowStr : String) : Except PyErr GOut :=
  match gdfp_body work_dict buildReq strptimeOutcome fetchJson publishOutcome nowStr with
  | Except.ok g => Except.ok g
  | Except.error (e, recE) =>
    Except.ok ⟨build_result Status.ERR
      (some ("failed - get_data_from_polygon with ex=" ++ pyErrStr e)) recE,
      Option.none, Option.none⟩

/-! ## The alpaca extraction path `extract_df_from_redis` -/

/-- The module-level `keys` mapping of `extract_df_from_redis.py`
(lines 20-28). -/
def extractKeys : List (String × Int) :=
  [("company", Alpaca.DATAFEED_COMPANY), ("daily", Alpaca.DATAFEED_DAILY),
   ("dividends", Alpaca.DATAFEED_DIVIDENDS), ("financials", Alpaca.DATAFEED_FINANCIALS),
   ("minute", Alpaca.DATAFEED_MINUTE), ("news", Alpaca.DATAFEED_NEWS),
   ("quote", Alpaca.DATAFEED_QUOTE)]

/-- The arguments `extract_dataset` hands to the external
`extract_utils.perform_extract` collaborator. -/
structure ExtractCall where
  df_type : Int
  df_str : String
  req : Dict
deriving DecidableEq, Repr

/-- `extract_df_from_redis.extract_dataset` (lines 297-357): reject keys not
in the registry (returning `None`), resolve the ticker and date, deep-copy
the caller's `work_dict`, write the derived `redis_key`/`s3_key` into the
copy, and hand it to `perform_extract`.  `latest_close` stands for the
`ae_utils.get_last_close_str()` collaborator (spec section 6: latest close
date as `YYYY-MM-DD`) and `ds_dict` for `api_requests.get_ds_dict`, both
outside src/. -/
def extract_dataset (key : String) (ticker date : Val) (work_dict : Option Dict)
    (latest_close : String) (ds_dict : Dict) : Option ExtractCall :=
  if key = "" ∨ ¬ (extractKeys.map Prod.fst).contains key then Option.none
  else
    let df_type := ((extractKeys.lookup key).getD 0)
    let df_str := Alpaca.get_datafeed_str df_type
    let ticker := match work_dict with
      | some wd => if pyTruthy ticker then ticker else dictGetD wd "ticker" Val.none
      | Option.none => ticker
    let wd := match work_dict with
      | some wd => wd
      | Option.none => ds_dict
    let req := wd
    let use_date := if pyTruthy date then date else Val.s latest_close
    let redis_key := pyStr ticker ++ "_" ++ pyStr use_date ++ "_" ++ key
    let req := dictSet (dictSet req "redis_key" (Val.s redis_key)) "s3_key" (Val.s redis_key)
    some ⟨df_type, df_str, req⟩

/-- `extract_df_from_redis.extract_news_dataset` (lines 145-180): passes the
storage alias `news1` as the dataset key. -/
def extract_news_dataset (ticker date : Val) (work_dict : Option Dict)
    (latest_close : String) (ds_dict : Dict) : Option ExtractCall :=
  extract_dataset "news1" ticker date work_dict latest_close ds_dict

/-- `extract_df_from_redis.extract_daily_dataset` (lines 31-66). -/
def extract_daily_dataset (ticker date : Val) (work_dict : Option Dict)
    (latest_close : String) (ds_dict : Dict) : Option ExtractCall :=
  extract_dataset "daily" ticker date work_dict latest_close ds_dict

/-! ## Object-store replay of the dictionary mutations

To make the clone-before-mutate discipline (spec section 4.4) provable as a
frame property, the dictionary-mutating sections are replayed against an
explicit object store: the caller's `work_dict` is the pre-existing object
at reference 0, and every Python `d[k] = v` statement becomes a store write
at the reference `d` denotes.  `copy.deepcopy` allocates a fresh reference;
had the source aliased instead of copying, the writes below would target
reference 0 and the frame theorems would fail. -/

abbrev Store := List Dict

/-- Dereference (out-of-range references never occur in the replays). -/
def storeGet (σ : Store) (r : Nat) : Dict :=
  (σ.get? r).getD []

/-- `obj[k] = v` at reference `r`. -/
def storeWrite (σ : Store) (r : Nat) (k : String) (v : Val) : Store :=
  σ.set r (dictSet (storeGet σ r) k v)

/-- Writing at a nonzero reference leaves the object at reference 0 alone. -/
theorem storeWrite_succ_head (σ : Store) (r : Nat) (k : String) (v : Val) :
    (storeWrite σ (r + 1) k v).head? = σ.head? := by
  cases σ <;> simp [storeWrite, List.set]

/-- A fold preserves the head of the store if each step does. -/
theorem foldl_head_pres {α : Type} (f : Store → α → Store)
    (h : ∀ σ x, (f σ x).head? = σ.head?) :
    ∀ (l : List α) (σ : Store), (l.foldl f σ).head? = σ.head? := by
  intro l
  induction l with
  | nil => intro σ; rfl
  | cons a t ih => intro σ; rw [List.foldl_cons, ih, h]

/-- Appending fresh allocations does not move the head object. -/
theorem append_head_pres (σ : Store) (l : Store) (a : Dict)
    (h : σ.head? = some a) : (σ ++ l).head? = some a := by
  cases σ with
  | nil => simp at h
  | cons x t => simpa using h

/-- get_data.py line 102 and the `clone_keys` loop (lines 114-117):
`polygon_req` lives at reference 1. -/
def gdfpStageClone (ticker label : Val) (σ : Store) : Store :=
  let σ := storeWrite σ 1 "ticker" ticker
  CLONE_KEYS.foldl (fun σ k =>
    if dictHas (storeGet σ 1) k then
      storeWrite σ 1 k (dictGetD (storeGet σ 0) k
        (Val.s (k ++ "-missing-in-" ++ pyStr label)))
    else σ) σ

/-- Line 139-142: the conditional `from` write on `polygon_req`
(reference 1); the boolean reports a strptime failure, which aborts the
remaining statements of the inner `try`. -/
def gdfpInnerFrom (strptimeOutcome : Except PyErr Val) (σ : Store) : Store × Bool :=
  if dictHas (storeGet σ 0) "from" then
    match strptimeOutcome with
    | Except.ok v => (storeWrite σ 1 "from" v, false)
    | Except.error _ => (σ, true)
  else (σ, false)

/-- Lines 143-148: the backfill writes on `polygon_req`. -/
def gdfpInnerBackfill (ticker field backfill_date : Val) (σ : Store) : Store :=
  if pyTruthy backfill_date then
    let rk := Val.s (pyStr ticker ++ "_" ++ pyStr backfill_date ++ "_" ++ pyStr field)
    storeWrite (storeWrite (storeWrite σ 1 "backfill_date" backfill_date)
      1 "redis_key" rk) 1 "s3_key" rk
  else σ

/-- The inner `try` writes (lines 139-160) composed. -/
def gdfpStageInner (ticker field backfill_date : Val)
    (strptimeOutcome : Except PyErr Val) (σ : Store) : Store :=
  let p := gdfpInnerFrom strptimeOutcome σ
  if p.2 then p.1 else gdfpInnerBackfill ticker field backfill_date p.1

/-- Lines 182-185: `upload_and_cache_req = copy.deepcopy(polygon_req)`
allocates reference 2; the `celery_disabled` and `data` writes target it. -/
def gdfpUploadBase (dataV : Val) (σ : Store) : Store :=
  storeWrite (storeWrite (σ ++ [storeGet σ 1]) 2 "celery_disabled" (Val.b true))
    2 "data" dataV

/-- Lines 185-186: replace a falsy `data` value by the empty JSON object. -/
def gdfpUploadData (σ : Store) : Store :=
  if pyTruthy (dictGetD (storeGet σ 2) "data" Val.none) then σ
  else storeWrite σ 2 "data" (Val.s "\x7b\x7d")

/-- One storage-key rewrite block against the store (lines 190-195 resp.
196-201); the boolean reports the `KeyError` raised by the eager `.get`
default, which aborts the remaining statements of the function. -/
def gdfpStageRewrite (keyName : String) (ticker backfill_date use_field : Val)
    (σ : Store) : Store × Bool :=
  if dictHas (storeGet σ 0) keyName then
    match dictGet? (storeGet σ 1) keyName with
    | Option.none => (σ, true)
    | some dflt =>
      let rk := dictGetD (storeGet σ 0) keyName dflt
      let rk := if pyTruthy backfill_date then
          Val.s (pyStr ticker ++ "_" ++ pyStr backfill_date)
        else rk
      (storeWrite σ 2 keyName (Val.s (pyStr rk ++ "_" ++ pyStr use_field)), false)
  else (σ, false)

/-- Lines 182-201 composed: allocate the deep copy, normalize `data`, then
rewrite `redis_key` and `s3_key` on the copy. -/
def gdfpStageUpload (ticker field backfill_date : Val) (dataV : Val) (σ : Store) : Store :=
  let use_field := if valEqStr field "news" then Val.s "news1" else field
  let p := gdfpStageRewrite "redis_key" ticker backfill_date use_field
    (gdfpUploadData (gdfpUploadBase dataV σ))
  if p.2 then p.1
  else (gdfpStageRewrite "s3_key" ticker backfill_date use_field p.1).1

/-- The complete dictionary-mutating section of `get_data_from_polygon`
(get_data.py lines 102-201) replayed against the store: the caller's
`work_dict` is the only pre-existing object, the builder's fresh
`polygon_req` is allocated at reference 1, and `copy.deepcopy` allocates
`upload_and_cache_req` at reference 2.  `dataV` is the value `rec["data"]`
holds when line 184 runs. -/
def gdfp_mutation_slice (wd builtReq : Dict) (ticker field label backfill_date : Val)
    (strptimeOutcome : Except PyErr Val) (dataV : Val) : Store :=
  let σ : Store := [wd] ++ [builtReq]
  let σ := gdfpStageClone ticker label σ
  let σ := gdfpStageInner ticker field backfill_date strptimeOutcome σ
  gdfpStageUpload ticker field backfill_date dataV σ

/-- The mutation section of `extract_dataset` (extract_df_from_redis.py
lines 334-341) replayed against the store: `req = copy.deepcopy(work_dict)`
allocates reference 1 with a copy of the caller's dictionary, and both key
writes target the copy. -/
def extract_mutation_slice (wd : Dict) (redis_key : String) : Store :=
  let σ : Store := [wd] ++ [wd]
  let σ := storeWrite σ 1 "redis_key" (Val.s redis_key)
  storeWrite σ 1 "s3_key" (Val.s redis_key)

theorem gdfpStageClone_head (ticker label : Val) (σ : Store) :
    (gdfpStageClone ticker label σ).head? = σ.head? := by
  unfold gdfpStageClone
  rw [foldl_head_pres]
  · exact storeWrite_succ_head σ 0 "ticker" ticker
  · intro σ x
    split
    · exact storeWrite_succ_head σ 0 _ _
    · rfl

theorem storeWrite_one_head (σ : Store) (k : String) (v : Val) :
    (storeWrite σ 1 k v).head? = σ.head? :=
  storeWrite_succ_head σ 0 k v

theorem gdfpInnerFrom_head (strptimeOutcome : Except PyErr Val) (σ : Store) :
    (gdfpInnerFrom strptimeOutcome σ).1.head? = σ.head? := by
  unfold gdfpInnerFrom
  split
  · split
    · exact storeWrite_one_head σ _ _
    · rfl
  · rfl

theorem gdfpInnerBackfill_head (ticker field backfill_date : Val) (σ : Store) :
    (gdfpInnerBackfill ticker field backfill_date σ).head? = σ.head? := by
  unfold gdfpInnerBackfill
  split
  · rw [storeWrite_one_head, storeWrite_one_head, storeWrite_one_head]
  · rfl

theorem gdfpStageInner_head (ticker field backfill_date : Val)
    (strptimeOutcome : Except PyErr Val) (σ : Store) :
    (gdfpStageInner ticker field backfill_date strptimeOutcome σ).head? = σ.head? := by
  simp only [gdfpStageInner]
  split
  · exact gdfpInnerFrom_head strptimeOutcome σ
  · rw [gdfpInnerBackfill_head, gdfpInnerFrom_head]

theorem storeWrite_two_head (σ : Store) (k : String) (v : Val) :
    (storeWrite σ 2 k v).head? = σ.head? :=
  storeWrite_succ_head σ 1 k v

theorem gdfpUploadBase_head (dataV : Val) (σ : Store) (a : Dict)
    (h : σ.head? = some a) : (gdfpUploadBase dataV σ).head? = some a := by
  unfold gdfpUploadBase
  rw [storeWrite_two_head, storeWrite_two_head]
  exact append_head_pres σ _ a h

theorem gdfpUploadData_head (σ : Store) : (gdfpUploadData σ).head? = σ.head? := by
  unfold gdfpUploadData
  split
  · rfl
  · exact storeWrite_two_head σ _ _

theorem gdfpStageRewrite_head (keyName : String) (ticker backfill_date use_field : Val)
    (σ : Store) :
    (gdfpStageRewrite keyName ticker backfill_date use_field σ).1.head? = σ.head? := by
  unfold gdfpStageRewrite
  split
  · split
    · rfl
    · exact storeWrite_two_head σ _ _
  · rfl

theorem gdfpStageUpload_head (ticker field backfill_date dataV : Val) (σ : Store)
    (a : Dict) (h : σ.head? = some a) :
    (gdfpStageUpload ticker field backfill_date dataV σ).head? = some a := by
  simp only [gdfpStageUpload]
  have hbase := gdfpUploadBase_head dataV σ a h
  split <;> split <;>
    simp only [gdfpStageRewrite_head, gdfpUploadData_head] <;> exact hbase

theorem gdfp_mutation_slice_head (wd builtReq : Dict)
    (ticker field label backfill_date : Val) (strp : Except PyErr Val) (dataV : Val) :
    (gdfp_mutation_slice wd builtReq ticker field label backfill_date strp dataV).head? =
      some wd := by
  simp only [gdfp_mutation_slice]
  apply gdfpStageUpload_head
  rw [gdfpStageInner_head, gdfpStageClone_head]
  rfl

/-- Substring test (`pat in s` for strings). -/
def strContains (s pat : String) : Bool :=
  s.toList.tails.any (fun t => pat.toList.isPrefixOf t)

/-! ## Claim theorems -/

/-- The status of an orchestrator run (projection for stating evaluations). -/
def runStatus (r : Except PyErr GOut) : Option Status :=
  match r with
  | Except.ok g => some g.res.status
  | Except.error _ => Option.none

/-- The `rec["data"]` slot of an orchestrator run. -/
def runRecData (r : Except PyErr GOut) : Option (Option String) :=
  match r with
  | Except.ok g => some g.res.rec_.data
  | Except.error _ => Option.none

/-- A storage key of the publish request of an orchestrator run. -/
def runPublishKey (keyName : String) (r : Except PyErr GOut) : Option Val :=
  match r with
  | Except.ok g =>
    match g.publishReq with
    | some u => dictGet? u keyName
    | Option.none => Option.none
  | Except.error _ => Option.none

/-- The `field` string as logged by an orchestrator run. -/
def runLogField (r : Except PyErr GOut) : Option String :=
  match r with
  | Except.ok g => g.logField
  | Except.error _ => Option.none

/-- The first row of the daily provider response documented in the source
comment at fetch_api.py line 237, whose millisecond-epoch field `t` holds
`1546405200000`. -/
def polygonDailySampleResults : PJson :=
  PJson.arr [PJson.obj
    [("v", PJson.raw "3.7039737e+07"), ("vw", PJson.raw "155.5485"),
     ("o", PJson.raw "154.89"), ("c", PJson.raw "157.92"),
     ("h", PJson.raw "158.85"), ("l", PJson.raw "154.23"),
     ("t", PJson.num 1546405200000), ("n", PJson.num 1)]]

/-- **C1.** The claim states that for a daily provider row with
millisecond-epoch field `1546405200000`, the polygon fetch-normalize
pipeline yields the canonical date string "2019-01-02".  The code does not:
`fetch_daily` renames the raw `t` column to `date` *before* calling
`convert_datetime_columns`, and `date` is listed in `POLYGON_DATE_FIELDS`
(plain `%Y-%m-%d` strings) rather than `POLYGON_TIME_FIELDS` (millisecond
epochs), so the epoch integer is coerced to `NaT` and the re-rendered index
cell is NaN — for every rendering format.  The second and third conjuncts
show the intended route: the millisecond-epoch converter (which does apply
to a column still named `t`) maps the value to a timestamp that renders as
"2019-01-02" (UTC). -/
theorem claim_C1_daily_epoch_row_not_normalized :
    (∀ fmt, ∃ df, Polygon.fetch_daily_postprocess polygonDailySampleResults fmt =
        Except.ok (FetchedFrame.indexed [Cell.cNaN] df)
      ∧ [Cell.cNaN] ≠ [Cell.cstr "2019-01-02"])
    ∧ toDatetimeEpoch 1000000 (Cell.cint 1546405200000) = Cell.cdt 1546405200000000000
    ∧ strftimeFmt "%Y-%m-%d" 1546405200000000000 = "2019-01-02" := by
  refine ⟨fun fmt => ⟨_, rfl, by decide⟩, rfl, by decide⟩

/-- **C2.** The claim states that `fetch_tickers`, given a first page with
`count=120, perPage=50`, fetches pages 1, 2 and 3 exactly once each and that
a caller-supplied `end_page=2` caps iteration.  The code cannot do any of
this: with the default `locale="us"` (or any truthy locale) it executes
`query_params.locale = locale` on a plain dict and raises `AttributeError`
before fetching a single page; moreover the page loop as written would
request pages `[1, 1, 2]` (page 1 twice, page 3 never), and `fetch_tickers`
accepts no `end_page` argument at all. -/
theorem claim_C2_fetch_tickers_pagination_broken :
    (∀ wd, Polygon.fetch_tickers (Val.s "us") wd =
      (Except.error (PyErr.attributeError
        "query_params object does not support attribute assignment"), []))
    ∧ Polygon.tickers_page_sequence 120 50 = [1, 1, 2]
    ∧ Polygon.tickers_page_sequence 120 50 ≠ [1, 2, 3] := by
  refine ⟨fun wd => ?_, by decide, by decide⟩
  have htr : pyTruthy (Val.s "us") = true := by decide
  cases wd with
  | none => rfl
  | some d => simp [Polygon.fetch_tickers, htr]

/-- **C3.** The claim states that all three provider-client functions raise
an error carrying both the status code and the response body on non-success
HTTP status, and that the orchestrator converts such failures to an ERROR
result.  Evaluated at a concrete 404 response: the polygon
`get_from_polygon` and the alpaca `get_from_alpaca` do raise, with the
status code and body embedded in the message (first two conjuncts) — but
the alpaca-module `get_from_polygon` returns `None` instead of raising,
because its `raise` is nested inside the 200 branch (third conjunct); and
the orchestrator catches a fetch failure in its inner handler and finishes
with a SUCCESS result carrying no data, not an ERROR result (fourth
conjunct). -/
theorem claim_C3_provider_error_propagation :
    Polygon.get_from_polygon ⟨"https://api.polygon.io/", some (Val.s "TOKEN")⟩
      "/v2/aggs/ticker/SPY/range/1/day/2019-01-02/2019-01-02" Option.none
      (some []) false (fun _ => ⟨404, "not found", PJson.null⟩) =
      (Except.error (PyErr.exception
        ("Failed to get data from Polygon with function=get_from_polygon " ++
         "url=https://api.polygon.io//v2/aggs/ticker/SPY/range/1/day/" ++
         "2019-01-02/2019-01-02?apiKey=TOKEN which sent response 404 - not found")),
       ["https://api.polygon.io//v2/aggs/ticker/SPY/range/1/day/2019-01-02/2019-01-02?apiKey=TOKEN"])
    ∧ Alpaca.get_from_alpaca "https://paper-api.alpaca.markets/"
        "bars/1D?symbols=SPY" false ⟨404, "not found", PJson.null⟩ =
      Except.error (PyErr.exception
        ("Failed to get data from Alpaca with function=get_from_alpaca " ++
         "url=https://paper-api.alpaca.markets/bars/1D?symbols=SPY " ++
         "which sent response 404 - not found"))
    ∧ Alpaca.get_from_polygon "https://api.polygon.io/" (some (Val.s "TOKEN"))
        "v1/meta/symbols/SPY/news" (some (Val.s "TOKEN")) false
        ⟨404, "not found", PJson.null⟩ = Except.ok Option.none
    ∧ runStatus (get_data_from_polygon
        (some [("ticker", Val.s "SPY"), ("ft_type", Val.s "daily")])
        (Except.ok []) (Except.ok (Val.dt 0))
        (Except.error (PyErr.exception "ProviderError 404")) (Except.ok [])
        "2020-01-01 00:00:00") = some Status.SUCCESS
    ∧ runRecData (get_data_from_polygon
        (some [("ticker", Val.s "SPY"), ("ft_type", Val.s "daily")])
        (Except.ok []) (Except.ok (Val.dt 0))
        (Except.error (PyErr.exception "ProviderError 404")) (Except.ok [])
        "2020-01-01 00:00:00") = some Option.none :=
  ⟨rfl, rfl, rfl, rfl, rfl⟩

/-- **C5.** Every input that satisfies none of the registry guards (it is
neither a registered numeric fetch-type code nor a supported kind name,
case-insensitively) resolves to the `unsupported ft_type=...` marker in both
provider registries, and the orchestrator converts the unsupported kind
(raised as `NotImplementedError`) into an ERR result value instead of
letting it escape. -/
theorem claim_C5_unknown_kind_rejected :
    (∀ ft, Polygon.ftKnown ft = false →
      Polygon.get_ft_str ft = "unsupported ft_type=" ++ pyStr ft)
    ∧ (∀ ft, Alpaca.ftKnown ft = false →
      Alpaca.get_ft_str ft = "unsupported ft_type=" ++ pyStr ft)
    ∧ (∀ wd buildReq strp fetchJson pub nowStr,
      gdfpKnown (dictGetD wd "ft_type" Val.none) = false →
      get_data_from_polygon (some wd) buildReq strp fetchJson pub nowStr =
        Except.ok ⟨⟨Status.ERR,
          some ("failed - get_data_from_polygon with ex=" ++
            pyErrStr PyErr.notImplementedError),
          ⟨Option.none, Option.none⟩⟩, Option.none, Option.none⟩) := by
  refine ⟨fun ft h => ?_, fun ft h => ?_,
    fun wd buildReq strp fetchJson pub nowStr h => ?_⟩
  · unfold Polygon.ftKnown at h
    simp only [Bool.or_eq_false_iff] at h
    obtain ⟨⟨⟨⟨⟨⟨⟨h1, h2⟩, h3⟩, h4⟩, h5⟩, h6⟩, h7⟩, h8⟩ := h
    simp [Polygon.get_ft_str, h1, h2, h3, h4, h5, h6, h7, h8]
  · unfold Alpaca.ftKnown at h
    simp only [Bool.or_eq_false_iff] at h
    obtain ⟨⟨⟨⟨⟨⟨⟨⟨⟨h1, h2⟩, h3⟩, h4⟩, h5⟩, h6⟩, h7⟩, h8⟩, h9⟩, h10⟩ := h
    simp [Alpaca.get_ft_str, h1, h2, h3, h4, h5, h6, h7, h8, h9, h10]
  · simp [get_data_from_polygon, gdfp_body, h, build_result, pyErrStr]

/-- **C5 witness.** The registry rejection and the orchestrator ERR result at
the concrete input "bogus". -/
theorem claim_C5_unknown_kind_rejected_witness :
    Polygon.get_ft_str (Val.s "bogus") = "unsupported ft_type=" ++ pyStr (Val.s "bogus")
    ∧ Alpaca.get_ft_str (Val.s "bogus") = "unsupported ft_type=" ++ pyStr (Val.s "bogus")
    ∧ get_data_from_polygon (some [("ft_type", Val.s "bogus")]) (Except.ok [])
        (Except.ok (Val.dt 0)) (Except.ok "x") (Except.ok []) "t" =
      Except.ok ⟨⟨Status.ERR,
        some ("failed - get_data_from_polygon with ex=" ++
          pyErrStr PyErr.notImplementedError),
        ⟨Option.none, Option.none⟩⟩, Option.none, Option.none⟩ :=
  ⟨claim_C5_unknown_kind_rejected.1 (Val.s "bogus") (by decide),
   claim_C5_unknown_kind_rejected.2.1 (Val.s "bogus") (by decide),
   claim_C5_unknown_kind_rejected.2.2 [("ft_type", Val.s "bogus")] (Except.ok [])
     (Except.ok (Val.dt 0)) (Except.ok "x") (Except.ok []) "t" (by decide)⟩

/-- **C4.** The claim states that a zero-row provider response yields an
empty table as a legal EMPTY outcome without raising.  The code instead
raises: both daily pipelines run `df.columns = [...]` before their
empty-frame check, and assigning 8 (polygon) resp. 6 (alpaca) column labels
to the 0-column frame built from an empty record list raises a
length-mismatch `ValueError`. -/
theorem claim_C4_empty_response_raises :
    (∀ fmt, Polygon.fetch_daily_postprocess (PJson.arr []) fmt =
      Except.error (PyErr.valueError
        "Length mismatch: Expected axis has 0 elements, new values have 8 elements"))
    ∧ (∀ fmt, Alpaca.fetch_daily_postprocess (PJson.arr []) fmt =
      Except.error (PyErr.valueError
        "Length mismatch: Expected axis has 0 elements, new values have 6 elements")) :=
  ⟨fun _ => rfl, fun _ => rfl⟩

/-- **C6.** For every input `work_dict` and every outcome of the external
collaborators (request builder, stdlib `strptime`, fetch + serialization,
publisher), `get_data_from_polygon` returns a result value — a
`{status, err, rec}` record with a terminal `SUCCESS` or `ERR` status — and
never lets an exception escape to its caller, so a batch caller issuing N
requests collects N outcomes. -/
theorem claim_C6_orchestrator_never_throws (work_dict : Option Dict)
    (buildReq : Except PyErr Dict) (strp : Except PyErr Val)
    (fetchJson : Except PyErr String) (pub : Except PyErr Dict) (nowStr : String) :
    ∃ g, get_data_from_polygon work_dict buildReq strp fetchJson pub nowStr = Except.ok g
      ∧ (g.res.status = Status.SUCCESS ∨ g.res.status = Status.ERR) := by
  unfold get_data_from_polygon
  cases hb : gdfp_body work_dict buildReq strp fetchJson pub nowStr with
  | error e =>
    obtain ⟨e1, e2⟩ := e
    exact ⟨_, rfl, Or.inr rfl⟩
  | ok g =>
    refine ⟨g, rfl, ?_⟩
    rcases work_dict with _ | wd
    · simp [gdfp_body] at hb
    · simp only [gdfp_body] at hb
      repeat' split at hb
      all_goals
        first
        | (simp only [Except.ok.injEq] at hb; subst hb;
           first | exact Or.inr rfl | exact Or.inl rfl)
        | (exact absurd hb (by simp))

/-- **C8.** Both publish/extract paths clone the request dictionary before
rewriting the cache/storage key fields: replaying every dictionary mutation
of get_data.py lines 102-201 and extract_df_from_redis.py lines 334-341
against an explicit object store leaves the caller's `work_dict` (the
pre-existing object at reference 0) bit-identical, for every input; the
extract path's writes land on the deep copy. -/
theorem claim_C8_caller_request_not_mutated (wd builtReq : Dict)
    (ticker field label backfill_date dataV : Val) (strp : Except PyErr Val)
    (redis_key : String) :
    (gdfp_mutation_slice wd builtReq ticker field label backfill_date strp dataV).head? =
        some wd
    ∧ (extract_mutation_slice wd redis_key).head? = some wd
    ∧ storeGet (extract_mutation_slice wd redis_key) 1 =
        dictSet (dictSet wd "redis_key" (Val.s redis_key)) "s3_key" (Val.s redis_key) :=
  ⟨gdfp_mutation_slice_head wd builtReq ticker field label backfill_date strp dataV,
   rfl, rfl⟩

/-- **C9.** The polygon helper `get_from_polygon` iterates `query_params`
before issuing the HTTP request, so every call that leaves `query_params` at
its default `None` — which is how `fetch_daily`, `fetch_minute`,
`fetch_quote`, `fetch_news`, `fetch_financials`, `fetch_dividends` and
`fetch_company` invoke it — raises `TypeError` with no HTTP request issued,
and none of these fetchers can return data. -/
theorem claim_C9_none_query_params_type_error :
    (∀ env url token verbose http, Polygon.get_from_polygon env url token
        Option.none verbose http =
      (Except.error (PyErr.typeError "NoneType object is not iterable"), []))
    ∧ (∀ ticker backfill wd verbose today env http fmt,
        Polygon.fetch_daily ticker backfill wd verbose today env http fmt =
          (Except.error (PyErr.typeError "NoneType object is not iterable"), []))
    ∧ (∀ t fh ud env v http, Polygon.fetch_minute_call t fh ud env v http =
        (Except.error (PyErr.typeError "NoneType object is not iterable"), []))
    ∧ (∀ t env v http, Polygon.fetch_quote_call t env v http =
        (Except.error (PyErr.typeError "NoneType object is not iterable"), []))
    ∧ (∀ t env v http, Polygon.fetch_news_call t env v http =
        (Except.error (PyErr.typeError "NoneType object is not iterable"), []))
    ∧ (∀ t env v http, Polygon.fetch_financials_call t env v http =
        (Except.error (PyErr.typeError "NoneType object is not iterable"), []))
    ∧ (∀ t env v http, Polygon.fetch_dividends_call t env v http =
        (Except.error (PyErr.typeError "NoneType object is not iterable"), []))
    ∧ (∀ t env v http, Polygon.fetch_company_call t env v http =
        (Except.error (PyErr.typeError "NoneType object is not iterable"), [])) :=
  ⟨fun _ _ _ _ _ => rfl, fun _ _ _ _ _ _ _ _ => rfl, fun _ _ _ _ _ _ => rfl,
   fun _ _ _ _ => rfl, fun _ _ _ _ => rfl, fun _ _ _ _ => rfl,
   fun _ _ _ _ => rfl, fun _ _ _ _ => rfl⟩

/-- A news request that supplies a backfill date but no `redis_key`/`s3_key`
fields in the caller's `work_dict`. -/
def c7wd : Dict :=
  [("ticker", Val.s "SPY"), ("field", Val.s "news"), ("ft_type", Val.s "news"),
   ("backfill_date", Val.s "2019-01-02")]

/-- **C7 counterexample.** The claim states that for every request with
dataset kind `news` the storage keys of the publish request contain `news1`
in place of `news`.  Not so: the `news → news1` rewrite (get_data.py lines
187-201) only runs when the caller's `work_dict` itself contains a
`redis_key` (resp. `s3_key`) entry; for a backfilled news request without
those entries the publish request goes out with keys ending in `_news`,
which contain no `news1`. -/
theorem claim_C7_news_alias_counterexample :
    runPublishKey "redis_key" (get_data_from_polygon (some c7wd) (Except.ok [])
      (Except.ok (Val.dt 0)) (Except.ok "[]") (Except.ok []) "2020-01-01 00:00:00") =
      some (Val.s "SPY_2019-01-02_news")
    ∧ runPublishKey "s3_key" (get_data_from_polygon (some c7wd) (Except.ok [])
      (Except.ok (Val.dt 0)) (Except.ok "[]") (Except.ok []) "2020-01-01 00:00:00") =
      some (Val.s "SPY_2019-01-02_news")
    ∧ strContains "SPY_2019-01-02_news" "news1" = false
    ∧ runLogField (get_data_from_polygon (some c7wd) (Except.ok [])
      (Except.ok (Val.dt 0)) (Except.ok "[]") (Except.ok []) "2020-01-01 00:00:00") =
      some "news" :=
  ⟨rfl, rfl, by decide, rfl⟩

theorem pyStr_s (v : String) : pyStr (Val.s v) = v := rfl

theorem isEmpty_false_of_ne_nil {l : Dict} (h : l ≠ []) : l.isEmpty = false := by
  cases l with
  | nil => exact absurd rfl h
  | cons a t => rfl

theorem foldl_preserve_ne_nil {α : Type} (f : Dict → α → Dict)
    (hf : ∀ r x, r ≠ [] → f r x ≠ []) :
    ∀ (l : List α) (r : Dict), r ≠ [] → l.foldl f r ≠ [] := by
  intro l
  induction l with
  | nil => intro r h; exact h
  | cons a t ih => intro r h; exact ih (f r a) (hf r a h)

/-- The `clone_keys` fold of the orchestrator never empties the request. -/
theorem cloneFold_ne_nil (wd : Dict) (label : Val) (r : Dict) (h : r ≠ []) :
    CLONE_KEYS.foldl (fun r k =>
      if dictHas r k then
        dictSet r k (dictGetD wd k (Val.s (k ++ "-missing-in-" ++ pyStr label)))
      else r) r ≠ [] := by
  apply foldl_preserve_ne_nil
  · intro r x hr
    split
    · exact dictSet_ne_nil r x _
    · exact hr
  · exact h

set_option maxHeartbeats 4000000 in
/-- Symbolic evaluation of the orchestrator body for a request that carries
a ticker, field, truthy backfill date and both storage-key entries (and no
`from` entry): the run completes, publishes, and the publish request carries
`{ticker}_{backfill_date}_{use_field}` as both storage keys. -/
theorem gdfp_body_backfill_publish (wd buildReq : Dict) (t f bd : String)
    (strp : Except PyErr Val) (fetchJson : Except PyErr String)
    (pub : Except PyErr Dict) (nowStr : String)
    (hticker : dictGet? wd "ticker" = some (Val.s t))
    (hfield : dictGet? wd "field" = some (Val.s f))
    (hbd : dictGet? wd "backfill_date" = some (Val.s bd))
    (hbdne : bd ≠ "")
    (hknown : gdfpKnown (dictGetD wd "ft_type" Val.none) = true)
    (hfrom : dictHas wd "from" = false)
    (hrk : dictHas wd "redis_key" = true)
    (hsk : dictHas wd "s3_key" = true) :
    ∃ up5 rec1,
      gdfp_body (some wd) (Except.ok buildReq) strp fetchJson pub nowStr =
        Except.ok ⟨build_result Status.SUCCESS Option.none rec1, some up5, some f⟩
      ∧ dictGet? up5 "redis_key" = some (Val.s ((t ++ "_" ++ bd) ++ "_" ++
          pyStr (if valEqStr (Val.s f) "news" then Val.s "news1" else Val.s f)))
      ∧ dictGet? up5 "s3_key" = some (Val.s ((t ++ "_" ++ bd) ++ "_" ++
          pyStr (if valEqStr (Val.s f) "news" then Val.s "news1" else Val.s f))) := by
  have hbdT : pyTruthy (Val.s bd) = true := by
    simp [pyTruthy, hbdne]
  have ht : dictGetD wd "ticker" (Val.s ae_TICKER) = Val.s t := by
    simp [dictGetD, hticker]
  have hfd : dictGetD wd "field" (Val.s "daily") = Val.s f := by
    simp [dictGetD, hfield]
  have hbd2 : dictGetD wd "backfill_date" Val.none = Val.s bd := by
    simp [dictGetD, hbd]
  have hclone := cloneFold_ne_nil wd
    (dictGetD wd "label" (Val.s "get_data_from_polygon"))
    (dictSet buildReq "ticker" (Val.s t)) (dictSet_ne_nil _ _ _)
  have hinner : ∀ req : Dict,
      gdfp_inner wd req (Val.s t) (Val.s f) (Val.s bd) strp fetchJson nowStr =
      (dictSet (dictSet (dictSet req "backfill_date" (Val.s bd)) "redis_key"
          (Val.s (t ++ "_" ++ bd ++ "_" ++ f))) "s3_key"
          (Val.s (t ++ "_" ++ bd ++ "_" ++ f)),
       (match fetchJson with
        | Except.ok js => (⟨some js, some nowStr⟩ : FetchRec)
        | Except.error _ => ⟨Option.none, Option.none⟩),
       (match fetchJson with
        | Except.ok _ => Option.none
        | Except.error e => some e)) := by
    intro req
    cases fetchJson <;> simp [gdfp_inner, hfrom, hbdT, pyStr_s]
  have hs3ne : ("s3_key" : String) ≠ "redis_key" := by decide
  have hrewrite : ∀ (req3 up : Dict) (keyName : String) (v uf : Val),
      dictHas wd keyName = true → dictGet? req3 keyName = some v →
      gdfp_rewrite_key wd req3 up keyName (Val.s t) (Val.s bd) uf =
        Except.ok (dictSet up keyName
          (Val.s ((t ++ "_" ++ bd) ++ "_" ++ pyStr uf))) := by
    intro req3 up keyName v uf hk hv
    simp [gdfp_rewrite_key, hk, hv, dictIdx, hbdT, pyStr_s]
  cases fetchJson with
  | error fe =>
    cases pub with
    | error pe =>
      simp only [gdfp_body, ht, hfd, hbd2, hknown, hinner]
      simp [gdfp_rewrite_key, isEmpty_false_of_ne_nil hclone, hrk, hsk, hbdT,
        dictIdx, dictGet?_dictSet, dictGet?_dictSet_ne, pyStr_s, build_result]
    | ok pd =>
      simp only [gdfp_body, ht, hfd, hbd2, hknown, hinner]
      simp [gdfp_rewrite_key, isEmpty_false_of_ne_nil hclone, hrk, hsk, hbdT,
        dictIdx, dictGet?_dictSet, dictGet?_dictSet_ne, pyStr_s, build_result]
  | ok js =>
    cases pub with
    | error pe =>
      simp only [gdfp_body, ht, hfd, hbd2, hknown, hinner]
      simp [gdfp_rewrite_key, isEmpty_false_of_ne_nil hclone, hrk, hsk, hbdT,
        dictIdx, dictGet?_dictSet, dictGet?_dictSet_ne, pyStr_s, build_result]
    | ok pd =>
      simp only [gdfp_body, ht, hfd, hbd2, hknown, hinner]
      simp [gdfp_rewrite_key, isEmpty_false_of_ne_nil hclone, hrk, hsk, hbdT,
        dictIdx, dictGet?_dictSet, dictGet?_dictSet_ne, pyStr_s, build_result]

/-- **C7 amended.** For requests that carry a ticker, a field name, a truthy
backfill date and both `redis_key` and `s3_key` entries in the caller’s
`work_dict` (and no `from` entry), and whose kind passes the dispatch, the
publish request’s storage keys have the form
`{ticker}_{backfill_date}_{kind}` with `news` rewritten to `news1` for
storage, while the kind string used for logging/display stays the original
field name; and on the extract path every registered key derives
`{ticker}_{date}_{kind}` as both `redis_key` and `s3_key`. -/
theorem claim_C7_news_alias_scoped (wd buildReq : Dict) (t f bd : String)
    (strp : Except PyErr Val) (fetchJson : Except PyErr String)
    (pub : Except PyErr Dict) (nowStr : String)
    (hticker : dictGet? wd "ticker" = some (Val.s t))
    (hfield : dictGet? wd "field" = some (Val.s f))
    (hbd : dictGet? wd "backfill_date" = some (Val.s bd))
    (hbdne : bd ≠ "")
    (hknown : gdfpKnown (dictGetD wd "ft_type" Val.none) = true)
    (hfrom : dictHas wd "from" = false)
    (hrk : dictHas wd "redis_key" = true)
    (hsk : dictHas wd "s3_key" = true) :
    (runPublishKey "redis_key" (get_data_from_polygon (some wd) (Except.ok buildReq)
        strp fetchJson pub nowStr) =
      some (Val.s (t ++ "_" ++ bd ++ "_" ++ (if f = "news" then "news1" else f)))
    ∧ runPublishKey "s3_key" (get_data_from_polygon (some wd) (Except.ok buildReq)
        strp fetchJson pub nowStr) =
      some (Val.s (t ++ "_" ++ bd ++ "_" ++ (if f = "news" then "news1" else f)))
    ∧ runLogField (get_data_from_polygon (some wd) (Except.ok buildReq)
        strp fetchJson pub nowStr) = some f
    ∧ runStatus (get_data_from_polygon (some wd) (Except.ok buildReq)
        strp fetchJson pub nowStr) = some Status.SUCCESS)
    ∧ (∀ key t0 d0 wdE lc ds, (extractKeys.map Prod.fst).contains key = true →
      t0 ≠ "" → d0 ≠ "" →
      ∃ c, extract_dataset key (Val.s t0) (Val.s d0) wdE lc ds = some c
        ∧ dictGet? c.req "redis_key" = some (Val.s (t0 ++ "_" ++ d0 ++ "_" ++ key))
        ∧ dictGet? c.req "s3_key" = some (Val.s (t0 ++ "_" ++ d0 ++ "_" ++ key))) := by
  constructor
  · obtain ⟨up5, rec1, hEq, hR, hS⟩ := gdfp_body_backfill_publish wd buildReq t f bd
      strp fetchJson pub nowStr hticker hfield hbd hbdne hknown hfrom hrk hsk
    have hkey : pyStr (if valEqStr (Val.s f) "news" then Val.s "news1" else Val.s f) =
        (if f = "news" then "news1" else f) := by
      by_cases hf : f = "news" <;> simp [valEqStr, hf, pyStr_s]
    rw [hkey] at hR hS
    refine ⟨?_, ?_, ?_, ?_⟩ <;>
      simp [get_data_from_polygon, hEq, runPublishKey, runLogField, runStatus,
        build_result, hR, hS]
  · intro key t0 d0 wdE lc ds hkey ht0 hd0
    have hcond : ¬(key = "" ∨ ¬ ((extractKeys.map Prod.fst).contains key = true)) := by
      rintro (h1 | h2)
      · subst h1; exact absurd hkey (by decide)
      · exact h2 hkey
    have ht0T : pyTruthy (Val.s t0) = true := by simp [pyTruthy, ht0]
    have hd0T : pyTruthy (Val.s d0) = true := by simp [pyTruthy, hd0]
    have hs3 : ("s3_key" : String) ≠ "redis_key" := by decide
    cases wdE with
    | none =>
      have hval : extract_dataset key (Val.s t0) (Val.s d0) Option.none lc ds =
          some ⟨(extractKeys.lookup key).getD 0,
                Alpaca.get_datafeed_str ((extractKeys.lookup key).getD 0),
                dictSet (dictSet ds "redis_key" (Val.s (t0 ++ "_" ++ d0 ++ "_" ++ key)))
                  "s3_key" (Val.s (t0 ++ "_" ++ d0 ++ "_" ++ key))⟩ := by
        rw [extract_dataset, if_neg hcond]
        simp [hd0T, pyStr_s]
      refine ⟨_, hval, ?_, ?_⟩
      · rw [dictGet?_dictSet_ne _ _ _ _ hs3, dictGet?_dictSet]
      · rw [dictGet?_dictSet]
    | some wd0 =>
      have hval : extract_dataset key (Val.s t0) (Val.s d0) (some wd0) lc ds =
          some ⟨(extractKeys.lookup key).getD 0,
                Alpaca.get_datafeed_str ((extractKeys.lookup key).getD 0),
                dictSet (dictSet wd0 "redis_key" (Val.s (t0 ++ "_" ++ d0 ++ "_" ++ key)))
                  "s3_key" (Val.s (t0 ++ "_" ++ d0 ++ "_" ++ key))⟩ := by
        rw [extract_dataset, if_neg hcond]
        simp [ht0T, hd0T, pyStr_s]
      refine ⟨_, hval, ?_, ?_⟩
      · rw [dictGet?_dictSet_ne _ _ _ _ hs3, dictGet?_dictSet]
      · rw [dictGet?_dictSet]

/-- A news request that carries a backfill date and both storage-key entries. -/
def c7wdFull : Dict :=
  [("ticker", Val.s "SPY"), ("field", Val.s "news"), ("ft_type", Val.s "news"),
   ("backfill_date", Val.s "2019-01-02"), ("redis_key", Val.s "SPY_2019-01-02"),
   ("s3_key", Val.s "SPY_2019-01-02")]

/-- **C7 witness.** The amended key derivation evaluated at a concrete news
request and a concrete daily extraction. -/
theorem claim_C7_news_alias_scoped_witness :
    (runPublishKey "redis_key" (get_data_from_polygon (some c7wdFull) (Except.ok [])
        (Except.ok (Val.dt 0)) (Except.ok "[]") (Except.ok []) "n") =
      some (Val.s "SPY_2019-01-02_news1")
    ∧ runPublishKey "s3_key" (get_data_from_polygon (some c7wdFull) (Except.ok [])
        (Except.ok (Val.dt 0)) (Except.ok "[]") (Except.ok []) "n") =
      some (Val.s "SPY_2019-01-02_news1")
    ∧ runLogField (get_data_from_polygon (some c7wdFull) (Except.ok [])
        (Except.ok (Val.dt 0)) (Except.ok "[]") (Except.ok []) "n") = some "news"
    ∧ runStatus (get_data_from_polygon (some c7wdFull) (Except.ok [])
        (Except.ok (Val.dt 0)) (Except.ok "[]") (Except.ok []) "n") =
      some Status.SUCCESS)
    ∧ (∃ c, extract_dataset "daily" (Val.s "SPY") (Val.s "2019-01-02")
        Option.none "lc" [] = some c
      ∧ dictGet? c.req "redis_key" = some (Val.s "SPY_2019-01-02_daily")
      ∧ dictGet? c.req "s3_key" = some (Val.s "SPY_2019-01-02_daily")) :=
  ⟨(claim_C7_news_alias_scoped c7wdFull [] "SPY" "news" "2019-01-02"
      (Except.ok (Val.dt 0)) (Except.ok "[]") (Except.ok []) "n"
      rfl rfl rfl (by decide) (by decide) rfl rfl rfl).1,
   (claim_C7_news_alias_scoped c7wdFull [] "SPY" "news" "2019-01-02"
      (Except.ok (Val.dt 0)) (Except.ok "[]") (Except.ok []) "n"
      rfl rfl rfl (by decide) (by decide) rfl rfl rfl).2
     "daily" "SPY" "2019-01-02" Option.none "lc" [] (by decide) (by decide) (by decide)⟩

/-- **C10 counterexample.** The claim states that the alpaca-module
`get_from_polygon` returns `None` for every call with `verbose=False` and an
HTTP 200 response.  It does not: the misindented `raise` sits inside the
200-status branch right after the `if verbose:` block, so a 200 response
with `verbose=False` raises the failure exception (whose message even embeds
the successful status code). -/
theorem claim_C10_ok_not_none_counterexample :
    Alpaca.get_from_polygon "https://api.polygon.io/" (some (Val.s "TOKEN"))
      "v1/meta/symbols/SPY/news" (some (Val.s "TOKEN")) false
      ⟨200, "ok-body", PJson.obj []⟩ =
    Except.error (PyErr.exception
      ("Failed to get data from Polygon with function=get_from_polygon " ++
       "url=https://api.polygon.io/v1/meta/symbols/SPY/news?apiKey=TOKEN " ++
       "which sent response 200 - ok-body")) := rfl

/-- **C10 amended.** The alpaca-module `get_from_polygon` returns the decoded
JSON only when the status is 200 *and* `verbose` is true; with
`verbose=False` and a 200 response it raises the failure exception; and for
every non-200 response it returns `None` — the `raise` is nested inside the
success branch and unreachable on failure — so callers such as the alpaca
`fetch_news` receive `None` on provider failure instead of data or an
exception. -/
theorem claim_C10_verbose_gated_return (base : String) (envToken : Option Val)
    (url : String) (token : Option Val) (resp : HttpResp) :
    (resp.status ≠ 200 → ∀ verbose,
      Alpaca.get_from_polygon base envToken url token verbose resp = Except.ok Option.none)
    ∧ (resp.status = 200 →
      Alpaca.get_from_polygon base envToken url token true resp = Except.ok (some resp.json))
    ∧ (resp.status = 200 →
      Alpaca.get_from_polygon base envToken url token false resp =
        Except.error (PyErr.exception
          ("Failed to get data from Polygon with function=get_from_polygon url=" ++
            base ++ url ++ "?apiKey=" ++
            pyStr (match token with
              | Option.none => envToken.getD Val.none
              | some t => t) ++
            " which sent response " ++ toString resp.status ++ " - " ++ resp.text)))
    ∧ (resp.status ≠ 200 → ∀ t v,
      Alpaca.fetch_news_call t base envToken v resp = Except.ok Option.none) := by
  refine ⟨fun h verbose => ?_, fun h => ?_, fun h => ?_, fun h t v => ?_⟩
  · simp [Alpaca.get_from_polygon, h]
  · simp [Alpaca.get_from_polygon, h]
  · simp [Alpaca.get_from_polygon, h, String.append_assoc]
  · simp [Alpaca.fetch_news_call, Alpaca.get_from_polygon, h]

/-- **C10 witness.** The amended behavior evaluated at concrete responses. -/
theorem claim_C10_verbose_gated_return_witness :
    Alpaca.get_from_polygon "b" Option.none "u" Option.none false
      ⟨404, "nf", PJson.null⟩ = Except.ok Option.none
    ∧ Alpaca.get_from_polygon "b" Option.none "u" Option.none true
      ⟨200, "", PJson.null⟩ = Except.ok (some PJson.null)
    ∧ Alpaca.get_from_polygon "b" Option.none "u" Option.none false
      ⟨200, "", PJson.null⟩ = Except.error (PyErr.exception
        ("Failed to get data from Polygon with function=get_from_polygon " ++
         "url=bu?apiKey=None which sent response 200 - "))
    ∧ Alpaca.fetch_news_call (Val.s "SPY") "b" Option.none false
      ⟨404, "nf", PJson.null⟩ = Except.ok Option.none :=
  ⟨(claim_C10_verbose_gated_return "b" Option.none "u" Option.none
      ⟨404, "nf", PJson.null⟩).1 (by decide) false,
   (claim_C10_verbose_gated_return "b" Option.none "u" Option.none
      ⟨200, "", PJson.null⟩).2.1 rfl,
   (claim_C10_verbose_gated_return "b" Option.none "u" Option.none
      ⟨200, "", PJson.null⟩).2.2.1 rfl,
   (claim_C10_verbose_gated_return "b" Option.none "u" Option.none
      ⟨404, "nf", PJson.null⟩).2.2.2 (by decide) (Val.s "SPY") false⟩

end StockAnalysis


